import Mathlib

/-!
Verification of the `Idea` repository's two presentational components,
`DreamCard` (src/DreamCard.tsx) and `FocusedDreamView`
(src/FocusedDreamView.tsx).  The definitions below are shallow embeddings
of the TypeScript source: JavaScript numbers become rationals, JavaScript
string truthiness is modelled explicitly, and the React event handlers
become pure state-transition functions whose asynchronous results are
passed in as explicit arguments.
-/

namespace Idea

/-- Processing status of a dream record, from the source type
`status?: "pending" | "storified"`. -/
inductive Status
  | pending
  | storified
deriving DecidableEq

/-- The optional nested analysis object with its optional display title. -/
structure Analysis where
  title : Option String
deriving DecidableEq

/-- The `Dream` record shape shared by both components. -/
structure Dream where
  _id : String
  content : String
  story : Option String
  status : Option Status
  analysis : Option Analysis
deriving DecidableEq

/-- JavaScript truthiness of an optional string: `undefined` and `""` are
falsy, every other string is truthy. -/
def truthy : Option String → Bool
  | none => false
  | some s => !(s == "")

/-- JavaScript `a || b` on an optional string and a string default,
as used in `focusedDream.analysis?.title || 'Dream Details'`. -/
def jsOr (a : Option String) (b : String) : String :=
  match a with
  | none => b
  | some s => if s == "" then b else s

/-- The optional AI title `dream.analysis?.title`. -/
def dreamTitle (d : Dream) : Option String :=
  d.analysis.bind Analysis.title

/-- What the clickable body of `DreamCard` renders: a loading indicator,
a title/story content block, or the fallback message. -/
inductive CardBody
  | loading
  | contentView (title : Option String) (storySnippet : Option String)
  | fallback
deriving DecidableEq

/-- Rendering policy of `DreamCard` (DreamCard.tsx lines 48-70):
`pending` shows the spinner; otherwise, if the story or the title is
truthy, the title and (when truthy) the story snippet are shown; else the
"Story or analysis data unavailable." fallback. -/
def dreamCardBody (d : Dream) : CardBody :=
  if d.status = some Status.pending then
    CardBody.loading
  else if truthy d.story || truthy (dreamTitle d) then
    CardBody.contentView (dreamTitle d) (if truthy d.story then d.story else none)
  else
    CardBody.fallback

/-- What the focused modal's card renders, field by field.  `none` / `false`
means the corresponding block is absent from the output. -/
structure FocusedBody where
  loading : Bool
  title : Option String
  contentText : Option String
  editorText : Option String
  storyText : Option String
  storyPlaceholder : Bool
  failNote : Bool
deriving DecidableEq

/-- Rendering policy of the focused card (FocusedDreamView.tsx lines
165-210): when `status` is `pending` only the spinner block renders; when
not pending, the header shows the AI title or the 'Dream Details' default,
the body shows either the read-only content or the editable field, and the
story section shows the story when truthy, else a placeholder; a further
failure note renders when not pending and the story is falsy. -/
def focusedBody (d : Dream) (isEditing : Bool) (editedContent : String) : FocusedBody :=
  if d.status = some Status.pending then
    { loading := true, title := none, contentText := none, editorText := none,
      storyText := none, storyPlaceholder := false, failNote := false }
  else
    { loading := false
      title := some (jsOr (dreamTitle d) ("Dream Details"))
      contentText := if isEditing then none else some d.content
      editorText := if isEditing then some editedContent else none
      storyText := if truthy d.story then d.story else none
      storyPlaceholder := !truthy d.story
      failNote := !truthy d.story }

/-! ## Zoom model (FocusedDreamView.tsx lines 27-30, 104-123, 246-261) -/

/-- `const MIN_SCALE = 0.5`. -/
def MIN_SCALE : ℚ := 1/2

/-- `const MAX_SCALE = 2.5`. -/
def MAX_SCALE : ℚ := 5/2

/-- `const ZOOM_LEVELS = [0.5, 1.0, 1.5, 2.0, 2.5]`. -/
def ZOOM_LEVELS : List ℚ := [1/2, 1, 3/2, 2, 5/2]

/-- `const SCROLL_SENSITIVITY = 0.15`. -/
def SCROLL_SENSITIVITY : ℚ := 3/20

/-- `Array.prototype.indexOf` scanning from position `i`: returns the
index of the first element strictly equal to `x`, or `-1`. -/
def jsIndexOfFrom (x : ℚ) : Nat → List ℚ → Int
  | _, [] => -1
  | i, y :: ys => if x = y then (i : Int) else jsIndexOfFrom x (i + 1) ys

/-- JavaScript `xs.indexOf(x)`. -/
def jsIndexOf (xs : List ℚ) (x : ℚ) : Int :=
  jsIndexOfFrom x 0 xs

/-- JavaScript `Math.round`: rounds half toward positive infinity. -/
def jsRound (q : ℚ) : ℤ := ⌊q + 1/2⌋

/-- The wheel handler's new scale (lines 105-112 and 254-261):
`Math.max(MIN_SCALE, Math.min(MAX_SCALE, scale + delta))` where `delta`
is `+SCROLL_SENSITIVITY` when `deltaY < 0` and `-SCROLL_SENSITIVITY`
otherwise. -/
def handleWheel (scale deltaY : ℚ) : ℚ :=
  max MIN_SCALE (min MAX_SCALE
    (scale + (if deltaY < 0 then SCROLL_SENSITIVITY else -SCROLL_SENSITIVITY)))

/-- The zoom control's click handler (lines 246-253):
`ZOOM_LEVELS[(ZOOM_LEVELS.indexOf(scale) + 1) % ZOOM_LEVELS.length]`.
The index is always in range, so the `getD` default is never returned. -/
def clickNextScale (scale : ℚ) : ℚ :=
  ZOOM_LEVELS.getD
    (((jsIndexOf ZOOM_LEVELS scale + 1) % (ZOOM_LEVELS.length : Int)).toNat) 0

/-- A zoom operation: a click on the zoom control or a wheel event with a
given `deltaY`. -/
inductive ZoomOp
  | click
  | wheel (deltaY : ℚ)

/-- The scale after one zoom operation. -/
def zoomStep (s : ℚ) : ZoomOp → ℚ
  | ZoomOp.click => clickNextScale s
  | ZoomOp.wheel d => handleWheel s d

/-- The scale after a sequence of zoom operations, starting from the
initial `useState(1)`. -/
def zoomRun (ops : List ZoomOp) : ℚ :=
  ops.foldl zoomStep 1

/-! ## Navigation model (FocusedDreamView.tsx lines 34-36, 221-241) -/

/-- `Array.prototype.findIndex` scanning from position `i`: the index of
the first element satisfying `p`, or `-1`. -/
def findIndexFrom (p : Dream → Bool) : Nat → List Dream → Int
  | _, [] => -1
  | i, d :: ds => if p d then (i : Int) else findIndexFrom p (i + 1) ds

/-- `allDreams.findIndex(dream => dream._id === focusedDream._id)`. -/
def findDreamIndex (all : List Dream) (id : String) : Int :=
  findIndexFrom (fun d => d._id == id) 0 all

/-- `const isFirst = currentIndex === 0`, the disabled flag of the
"previous" button. -/
def isFirst (focused : Dream) (all : List Dream) : Bool :=
  findDreamIndex all focused._id == 0

/-- `const isLast = currentIndex === allDreams.length - 1`, the disabled
flag of the "next" button. -/
def isLast (focused : Dream) (all : List Dream) : Bool :=
  findDreamIndex all focused._id == (all.length : Int) - 1

/-- Modelled from the spec's words: the position of the focused record in
the supplied list, i.e. the index of the first element carrying the
focused record's identifier (`none` when it does not occur). -/
def firstMatchIdx? : List Dream → String → Option Nat
  | [], _ => none
  | d :: ds, id => if d._id = id then some 0 else (firstMatchIdx? ds id).map (· + 1)

/-! ## Save and regenerate handlers (FocusedDreamView.tsx lines 283-319) -/

/-- The ephemeral edit state of the modal: the `isEditing` flag and the
`editedContent` buffer. -/
structure EditState where
  isEditing : Bool
  editedContent : String
deriving DecidableEq

/-- Result of awaiting the `updateDreamContent` mutation. -/
inductive MutationResult
  | success
  | failure (msg : String)
deriving DecidableEq

/-- The argument object `{ dreamId, content }` passed to the
`updateDreamContent` mutation. -/
structure SaveCall where
  dreamId : String
  content : String
deriving DecidableEq

/-- Everything the save click produces: the next edit state, the mutation
call that was issued, and the console diagnostics. -/
structure SaveOutcome where
  state : EditState
  call : SaveCall
  log : List String
deriving DecidableEq

/-- The save button's click handler (lines 283-302): it always calls
`updateDreamContent({ dreamId: focusedDream._id, content: editedContent })`
and awaits it; on success it runs `setIsEditing(false)`, on failure the
`catch` block logs and the state is untouched. -/
def handleSave (d : Dream) (st : EditState) (r : MutationResult) : SaveOutcome :=
  { call := { dreamId := d._id, content := st.editedContent }
    state :=
      match r with
      | MutationResult.success => { st with isEditing := false }
      | MutationResult.failure _ => st
    log :=
      match r with
      | MutationResult.success => []
      | MutationResult.failure msg => ["Failed to save dream: " ++ msg] }

/-- How a call to the `generateStory` action can go.  The handler does not
`await` the returned promise, so a failure is either a synchronous throw
(caught by the `try`/`catch`) or an asynchronous rejection of the floating
promise (not caught). -/
inductive ActionOutcome
  | syncThrow (msg : String)
  | asyncResolve
  | asyncReject (msg : String)
deriving DecidableEq

/-- Everything the regenerate click produces: the next edit state, the
dream id passed to `generateStory` (if it was invoked), the console
diagnostics, and an unhandled promise rejection if one escaped. -/
structure RegenOutcome where
  state : EditState
  actionCalled : Option String
  log : List String
  unhandledRejection : Option String
deriving DecidableEq

/-- The regenerate button's click handler (lines 304-319): it first runs
`setIsEditing(false)` when editing, then calls
`generateStory({ dreamId: focusedDream._id })` inside `try`/`catch`
WITHOUT awaiting it.  Only a synchronous throw reaches the `catch` and its
`console.error`; an asynchronous rejection leaves the handler silently and
becomes an unhandled rejection. -/
def handleRegenerate (d : Dream) (st : EditState) (outcome : ActionOutcome) :
    RegenOutcome :=
  { state := if st.isEditing then { st with isEditing := false } else st
    actionCalled := some d._id
    log :=
      match outcome with
      | ActionOutcome.syncThrow msg => ["Failed to trigger story regeneration: " ++ msg]
      | ActionOutcome.asyncResolve => []
      | ActionOutcome.asyncReject _ => []
    unhandledRejection :=
      match outcome with
      | ActionOutcome.syncThrow _ => none
      | ActionOutcome.asyncResolve => none
      | ActionOutcome.asyncReject msg => some msg }

/-! ## Edit-buffer seeding (FocusedDreamView.tsx lines 42-43, 79-82, 267-268) -/

/-- The view state relevant to edit-buffer seeding: the edit flag, the
buffer, and the focused record's current content. -/
structure ViewState where
  isEditing : Bool
  editedContent : String
  dreamContent : String
deriving DecidableEq

/-- The events that touch this state: the edit button's toggle
(`setIsEditing(!isEditing)`), typing in the textarea
(`setEditedContent(e.target.value)`, only rendered while editing), and a
change of the focused record, whose effect (lines 79-82) reseeds the
buffer and clears the edit flag. -/
inductive ViewEvent
  | toggleEdit
  | typeContent (s : String)
  | dreamChange (c : String)
deriving DecidableEq

/-- Initial state on mount: `useState(focusedDream.content)` seeds the
buffer and editing starts off. -/
def initView (c : String) : ViewState :=
  { isEditing := false, editedContent := c, dreamContent := c }

/-- One event's effect on the view state. -/
def viewStep (st : ViewState) : ViewEvent → ViewState
  | ViewEvent.toggleEdit => { st with isEditing := !st.isEditing }
  | ViewEvent.typeContent s =>
      if st.isEditing then { st with editedContent := s } else st
  | ViewEvent.dreamChange c =>
      { isEditing := false, editedContent := c, dreamContent := c }

/-- The view state after a sequence of events from mount with content `c`. -/
def viewRun (c : String) (evs : List ViewEvent) : ViewState :=
  evs.foldl viewStep (initView c)

/-! ## Click propagation (FocusedDreamView.tsx lines 138-158, 221-268, 283-324) -/

/-- The elements with a role in click propagation: the backdrop, the card,
its inner content, the two toolbar containers, and the toolbar controls. -/
inductive UiNode
  | backdrop
  | cardBody
  | innerContent
  | toolbarOuter
  | toolbarInner
  | prevBtn
  | nextBtn
  | zoomControl
  | editBtn
  | saveBtn
  | regenBtn
deriving DecidableEq

/-- Which nodes' click handlers call `e.stopPropagation()`: the card body
(line 158) and every toolbar control (lines 222, 233, 247, 268, 286, 306). -/
def hasStopPropagation : UiNode → Bool
  | UiNode.cardBody => true
  | UiNode.prevBtn => true
  | UiNode.nextBtn => true
  | UiNode.zoomControl => true
  | UiNode.editBtn => true
  | UiNode.saveBtn => true
  | UiNode.regenBtn => true
  | _ => false

/-- Which nodes' click handlers call the close callback: only the backdrop
(`onClick={onClose}`, line 141). -/
def callsOnClose : UiNode → Bool
  | UiNode.backdrop => true
  | _ => false

/-- The DOM ancestor chain of each node, target first, following the JSX
nesting: controls sit in the inner toolbar, inside the outer toolbar
container, inside the backdrop; the inner content sits in the card, inside
the backdrop. -/
def ancestorChain : UiNode → List UiNode
  | UiNode.backdrop => [UiNode.backdrop]
  | UiNode.cardBody => [UiNode.cardBody, UiNode.backdrop]
  | UiNode.innerContent => [UiNode.innerContent, UiNode.cardBody, UiNode.backdrop]
  | UiNode.toolbarOuter => [UiNode.toolbarOuter, UiNode.backdrop]
  | UiNode.toolbarInner => [UiNode.toolbarInner, UiNode.toolbarOuter, UiNode.backdrop]
  | n => [n, UiNode.toolbarInner, UiNode.toolbarOuter, UiNode.backdrop]

/-- Event bubbling: handlers run from the target upward, and
`stopPropagation` prevents every later handler from running.  Returns
whether some handler that ran called the close callback. -/
def dispatchClick : List UiNode → Bool
  | [] => false
  | n :: rest => callsOnClose n || (!hasStopPropagation n && dispatchClick rest)

/-- Whether a click on the given node ends up invoking the close callback. -/
def closeFiredOn (t : UiNode) : Bool :=
  dispatchClick (ancestorChain t)

/-! ## Body scroll lock (FocusedDreamView.tsx lines 56-65) -/

/-- The three `document.body` style properties the mount effect touches. -/
structure BodyStyle where
  overflow : String
  position : String
  width : String
deriving DecidableEq

/-- The mount effect: `overflow = 'hidden'`, `position = 'fixed'`,
`width = '100%'`, whatever was there before. -/
def mountScrollLock (_prior : BodyStyle) : BodyStyle :=
  { overflow := "hidden", position := "fixed", width := "100%" }

/-- The cleanup on unmount: `overflow = 'unset'`, `position = ''`,
`width = ''` — fixed values, not the saved prior ones. -/
def unmountScrollLock (_st : BodyStyle) : BodyStyle :=
  { overflow := "unset", position := "", width := "" }

/-- A body style in effect before mount that differs from the defaults. -/
def priorStyle : BodyStyle :=
  { overflow := "scroll", position := "static", width := "50%" }

/-- A concrete record still awaiting generation. -/
def pendingDream : Dream :=
  { _id := "p1", content := "I was flying", story := none,
    status := some Status.pending, analysis := none }

/-- A concrete completed record. -/
def dreamA : Dream :=
  { _id := "a1", content := "first dream", story := some ("story one"),
    status := some Status.storified, analysis := none }

/-- A second concrete completed record. -/
def dreamB : Dream :=
  { _id := "b2", content := "second dream", story := some ("story two"),
    status := some Status.storified, analysis := none }

/-- A third concrete completed record. -/
def dreamC : Dream :=
  { _id := "c3", content := "third dream", story := some ("story three"),
    status := some Status.storified, analysis := none }

/-- C1: for every record whose status is `pending`, the card body is the
loading indicator (so neither story nor title render there), and the
focused view shows its loading block while rendering no title and no story
text. -/
theorem pending_hides_narrative (d : Dream) (isEditing : Bool) (ec : String)
    (h : d.status = some Status.pending) :
    dreamCardBody d = CardBody.loading ∧
    (focusedBody d isEditing ec).loading = true ∧
    (focusedBody d isEditing ec).title = none ∧
    (focusedBody d isEditing ec).storyText = none := by
  refine ⟨?_, ?_, ?_, ?_⟩ <;> simp [dreamCardBody, focusedBody, h]

/-- Witness for C1 at a concrete pending record. -/
theorem pending_hides_narrative_witness :
    pendingDream.status = some Status.pending ∧
    dreamCardBody pendingDream = CardBody.loading ∧
    (focusedBody pendingDream false ("")).title = none :=
  ⟨rfl, (pending_hides_narrative pendingDream false ("") rfl).1,
    (pending_hides_narrative pendingDream false ("") rfl).2.2.1⟩

/-! ## Zoom lemmas -/

lemma clickNextScale_half : clickNextScale (1/2) = 1 := by
  norm_num [clickNextScale, jsIndexOf, jsIndexOfFrom, ZOOM_LEVELS, List.getD, Int.toNat_ofNat]

lemma clickNextScale_one : clickNextScale 1 = 3/2 := by
  norm_num [clickNextScale, jsIndexOf, jsIndexOfFrom, ZOOM_LEVELS, List.getD,
    Int.toNat_ofNat] <;> rfl

lemma clickNextScale_three_halves : clickNextScale (3/2) = 2 := by
  norm_num [clickNextScale, jsIndexOf, jsIndexOfFrom, ZOOM_LEVELS, List.getD,
    Int.toNat_ofNat] <;> rfl

lemma clickNextScale_two : clickNextScale 2 = 5/2 := by
  norm_num [clickNextScale, jsIndexOf, jsIndexOfFrom, ZOOM_LEVELS, List.getD,
    Int.toNat_ofNat] <;> rfl

lemma clickNextScale_five_halves : clickNextScale (5/2) = 1/2 := by
  norm_num [clickNextScale, jsIndexOf, jsIndexOfFrom, ZOOM_LEVELS, List.getD, Int.toNat_ofNat]

lemma handleWheel_bounds (s d : ℚ) :
    MIN_SCALE ≤ handleWheel s d ∧ handleWheel s d ≤ MAX_SCALE := by
  unfold handleWheel
  refine ⟨le_max_left _ _, max_le ?_ (min_le_left _ _)⟩
  norm_num [MIN_SCALE, MAX_SCALE]

lemma jsIndexOf_eq_neg_one {s : ℚ} (h : s ∉ ZOOM_LEVELS) : jsIndexOf ZOOM_LEVELS s = -1 := by
  simp only [ZOOM_LEVELS, List.mem_cons, List.not_mem_nil, or_false, not_or] at h
  obtain ⟨h1, h2, h3, h4, h5⟩ := h
  simp only [jsIndexOf, ZOOM_LEVELS, jsIndexOfFrom, if_neg h1, if_neg h2, if_neg h3,
    if_neg h4, if_neg h5]

lemma clickNextScale_of_not_mem {s : ℚ} (h : s ∉ ZOOM_LEVELS) : clickNextScale s = 1/2 := by
  rw [clickNextScale, jsIndexOf_eq_neg_one h]
  norm_num [ZOOM_LEVELS, List.getD]

lemma clickNextScale_bounds (s : ℚ) :
    MIN_SCALE ≤ clickNextScale s ∧ clickNextScale s ≤ MAX_SCALE := by
  by_cases h : s ∈ ZOOM_LEVELS
  · simp only [ZOOM_LEVELS, List.mem_cons, List.not_mem_nil, or_false] at h
    rcases h with rfl | rfl | rfl | rfl | rfl <;>
      rw [MIN_SCALE, MAX_SCALE] <;>
      norm_num [clickNextScale_half, clickNextScale_one, clickNextScale_three_halves,
        clickNextScale_two, clickNextScale_five_halves]
  · rw [clickNextScale_of_not_mem h, MIN_SCALE, MAX_SCALE]
    norm_num

lemma zoomStep_bounds (s : ℚ) (op : ZoomOp) :
    MIN_SCALE ≤ zoomStep s op ∧ zoomStep s op ≤ MAX_SCALE := by
  cases op with
  | click => exact clickNextScale_bounds s
  | wheel d => exact handleWheel_bounds s d

lemma zoomRun_bounds (ops : List ZoomOp) :
    MIN_SCALE ≤ zoomRun ops ∧ zoomRun ops ≤ MAX_SCALE := by
  rcases List.eq_nil_or_concat ops with rfl | ⟨as, a, rfl⟩
  · rw [MIN_SCALE, MAX_SCALE]
    norm_num [zoomRun]
  · rw [zoomRun, List.concat_eq_append, List.foldl_concat]
    exact zoomStep_bounds _ _

/-- C3: the zoom scale starts at `1`, stays inside `[0.5, 2.5]` after any
sequence of zoom operations (preset clicks and wheel events), and a preset
click moves each preset value to the next one of
`{0.5, 1.0, 1.5, 2.0, 2.5}`, wrapping from `2.5` back to `0.5`. -/
theorem zoom_invariant_and_presets :
    zoomRun [] = 1 ∧
    (∀ ops : List ZoomOp, MIN_SCALE ≤ zoomRun ops ∧ zoomRun ops ≤ MAX_SCALE) ∧
    clickNextScale (1/2) = 1 ∧ clickNextScale 1 = 3/2 ∧
    clickNextScale (3/2) = 2 ∧ clickNextScale 2 = 5/2 ∧
    clickNextScale (5/2) = 1/2 :=
  ⟨rfl, zoomRun_bounds, clickNextScale_half, clickNextScale_one,
    clickNextScale_three_halves, clickNextScale_two, clickNextScale_five_halves⟩

/-- C4: for any scale inside the working range, a wheel event with
positive `deltaY` (wheel-down) yields exactly `scale - 0.15` clamped below
at `0.5`, a wheel event with negative `deltaY` (wheel-up) yields exactly
`scale + 0.15` clamped above at `2.5`; and from scale `1` one preset click
yields `1.5`, displayed as `150` percent. -/
theorem wheel_exact_step_and_click_example (s deltaY : ℚ)
    (h1 : MIN_SCALE ≤ s) (h2 : s ≤ MAX_SCALE) :
    (0 < deltaY → handleWheel s deltaY = max MIN_SCALE (s - SCROLL_SENSITIVITY)) ∧
    (deltaY < 0 → handleWheel s deltaY = min MAX_SCALE (s + SCROLL_SENSITIVITY)) ∧
    clickNextScale 1 = 3/2 ∧ jsRound (clickNextScale 1 * 100) = 150 := by
  simp only [MIN_SCALE, MAX_SCALE] at h1 h2
  refine ⟨?_, ?_, clickNextScale_one, ?_⟩
  · intro hd
    have hns : ¬ deltaY < 0 := by linarith
    have hb : s + -SCROLL_SENSITIVITY ≤ MAX_SCALE := by
      rw [MAX_SCALE, SCROLL_SENSITIVITY]
      linarith
    rw [handleWheel, if_neg hns, min_eq_right hb, MIN_SCALE, SCROLL_SENSITIVITY]
    norm_num [sub_eq_add_neg]
  · intro hd
    have hb : MIN_SCALE ≤ min MAX_SCALE (s + SCROLL_SENSITIVITY) := by
      refine le_min ?_ ?_
      · rw [MIN_SCALE, MAX_SCALE]
        norm_num
      · rw [MIN_SCALE, SCROLL_SENSITIVITY]
        linarith
    rw [handleWheel, if_pos hd, max_eq_right hb]
  · rw [clickNextScale_one, jsRound, Int.floor_eq_iff]
    norm_num

/-- Witness for C4 at scale `1` with wheel-down and wheel-up events. -/
theorem wheel_exact_step_witness :
    handleWheel 1 1 = max MIN_SCALE (1 - SCROLL_SENSITIVITY) ∧
    handleWheel 1 (-1) = min MAX_SCALE (1 + SCROLL_SENSITIVITY) ∧
    clickNextScale 1 = 3/2 := by
  have h := wheel_exact_step_and_click_example 1 1
    (by rw [MIN_SCALE]; norm_num) (by rw [MAX_SCALE]; norm_num)
  have h' := wheel_exact_step_and_click_example 1 (-1)
    (by rw [MIN_SCALE]; norm_num) (by rw [MAX_SCALE]; norm_num)
  exact ⟨h.1 (by norm_num), h'.2.1 (by norm_num), h.2.2.1⟩

/-- C10: when the current scale is not one of the presets (as after wheel
fine-tuning), `indexOf` returns `-1`, the next index wraps to `0`, and a
preset click sets the scale to the first preset `0.5`. -/
theorem click_snaps_to_first_preset (s : ℚ) (h : s ∉ ZOOM_LEVELS) :
    jsIndexOf ZOOM_LEVELS s = -1 ∧ clickNextScale s = 1/2 :=
  ⟨jsIndexOf_eq_neg_one h, clickNextScale_of_not_mem h⟩

/-- Witness for C10 at the scale `1.15` produced by one wheel-up from `1`. -/
theorem click_snaps_to_first_preset_witness :
    handleWheel 1 (-1) = 23/20 ∧ (23/20 : ℚ) ∉ ZOOM_LEVELS ∧
    clickNextScale (23/20) = 1/2 := by
  have hmem : (23/20 : ℚ) ∉ ZOOM_LEVELS := by norm_num [ZOOM_LEVELS]
  refine ⟨?_, hmem, (click_snaps_to_first_preset (23/20) hmem).2⟩
  rw [handleWheel, if_pos (by norm_num), MIN_SCALE, MAX_SCALE, SCROLL_SENSITIVITY]
  norm_num

/-! ## Navigation lemmas -/

lemma findIndexFrom_spec (id : String) (all : List Dream) :
    ∀ k : Nat, findIndexFrom (fun d => d._id == id) k all =
      match firstMatchIdx? all id with
      | some i => ((k + i : Nat) : Int)
      | none => -1 := by
  induction all with
  | nil =>
    intro k
    rfl
  | cons d ds ih =>
    intro k
    by_cases hd : d._id = id
    · simp [findIndexFrom, firstMatchIdx?, hd]
    · rw [findIndexFrom, if_neg (by simp [hd]), firstMatchIdx?, if_neg hd, ih (k + 1)]
      cases h2 : firstMatchIdx? ds id with
      | none => simp
      | some i =>
        simp only [Option.map_some']
        push_cast
        ring

lemma findDreamIndex_of_none {focused : Dream} {all : List Dream}
    (h : firstMatchIdx? all focused._id = none) :
    findDreamIndex all focused._id = -1 := by
  rw [findDreamIndex, findIndexFrom_spec, h]

lemma findDreamIndex_of_some {focused : Dream} {all : List Dream} {i : Nat}
    (h : firstMatchIdx? all focused._id = some i) :
    findDreamIndex all focused._id = (i : Int) := by
  rw [findDreamIndex, findIndexFrom_spec, h]
  simp

/-- Counterexample to C2 as stated: with an empty supplied list the "next"
button is disabled (`currentIndex` is `-1` and `length - 1` is `-1` too)
even though the focused record is at no index of the list at all. -/
theorem nav_disable_counterexample :
    isLast dreamA [] = true ∧ firstMatchIdx? [] dreamA._id = none := by
  constructor
  · rfl
  · rfl

/-- C2 (amended): provided the supplied list is nonempty, the "previous"
button is disabled iff the focused record's identifier first occurs at
index `0`, and the "next" button is disabled iff it first occurs at the
last index of the list. -/
theorem nav_disable_iff_of_ne_nil (focused : Dream) (all : List Dream)
    (h : all ≠ []) :
    (isFirst focused all = true ↔ firstMatchIdx? all focused._id = some 0) ∧
    (isLast focused all = true ↔
      firstMatchIdx? all focused._id = some (all.length - 1)) := by
  have hlen : 0 < all.length := List.length_pos.mpr h
  cases hfm : firstMatchIdx? all focused._id with
  | none =>
    have hidx := findDreamIndex_of_none hfm
    constructor
    · simp [isFirst, hidx]
    · simp only [isLast, hidx, beq_iff_eq]
      constructor
      · intro hc
        omega
      · intro hc
        exact absurd hc (by simp)
  | some i =>
    have hidx := findDreamIndex_of_some hfm
    constructor
    · simp only [isFirst, hidx, beq_iff_eq, Option.some.injEq]
      constructor
      · intro hc
        omega
      · intro hc
        omega
    · simp only [isLast, hidx, beq_iff_eq, Option.some.injEq]
      constructor
      · intro hc
        omega
      · intro hc
        omega

/-- Witness for C2 (amended) on the spec's three-record example with the
last record focused. -/
theorem nav_disable_iff_witness :
    (isFirst dreamC [dreamA, dreamB, dreamC] = true ↔
      firstMatchIdx? [dreamA, dreamB, dreamC] dreamC._id = some 0) ∧
    (isLast dreamC [dreamA, dreamB, dreamC] = true ↔
      firstMatchIdx? [dreamA, dreamB, dreamC] dreamC._id = some 2) := by
  have h := nav_disable_iff_of_ne_nil dreamC [dreamA, dreamB, dreamC] (by simp)
  simpa using h

/-! ## Save, regenerate, edit seeding, propagation, scroll lock -/

/-- C5: a save issued while editing calls the mutation with the focused
record's id and the current edit buffer, exits edit mode iff the mutation
succeeds, never touches the edit buffer, and on failure logs a diagnostic
and leaves the whole edit state unchanged. -/
theorem save_persists_and_exit_iff (d : Dream) (st : EditState) (r : MutationResult)
    (h : st.isEditing = true) :
    (handleSave d st r).call.dreamId = d._id ∧
    (handleSave d st r).call.content = st.editedContent ∧
    ((handleSave d st r).state.isEditing = false ↔ r = MutationResult.success) ∧
    (handleSave d st r).state.editedContent = st.editedContent ∧
    (∀ msg, r = MutationResult.failure msg →
      (handleSave d st r).log ≠ [] ∧ (handleSave d st r).state = st) := by
  cases r <;> simp [handleSave, h]

/-- Witness for C5 at a concrete record, buffer and a failing mutation. -/
theorem save_persists_witness :
    ((handleSave dreamA { isEditing := true, editedContent := "draft" }
        (MutationResult.failure ("network"))).state.isEditing = false ↔
      MutationResult.failure ("network") = MutationResult.success) ∧
    (handleSave dreamA { isEditing := true, editedContent := "draft" }
        (MutationResult.failure ("network"))).state.editedContent = "draft" := by
  have h := save_persists_and_exit_iff dreamA
    { isEditing := true, editedContent := "draft" } (MutationResult.failure ("network")) rfl
  exact ⟨h.2.2.1, h.2.2.2.1⟩

/-- C6: the regenerate click exits edit mode and invokes the action with
the focused record's id, but an asynchronous failure of the action is NOT
captured: the promise is not awaited, so the `catch` logs nothing and the
rejection escapes unhandled, contrary to the claim's capture-and-log
behaviour. -/
theorem regenerate_async_failure_unlogged :
    handleRegenerate dreamA { isEditing := true, editedContent := "draft" }
        (ActionOutcome.asyncReject ("network error")) =
      { state := { isEditing := false, editedContent := "draft" },
        actionCalled := some dreamA._id,
        log := [],
        unhandledRejection := some ("network error") } := rfl

/-- Counterexample to C7 as stated: edit once, type replacement text,
cancel, and toggle edit mode back on — the editable field then shows the
stale buffer, not the record's current content. -/
theorem edit_seed_counterexample :
    (viewRun ("orig") [ViewEvent.toggleEdit, ViewEvent.typeContent ("X"),
      ViewEvent.toggleEdit, ViewEvent.toggleEdit]).isEditing = true ∧
    (viewRun ("orig") [ViewEvent.toggleEdit, ViewEvent.typeContent ("X"),
      ViewEvent.toggleEdit, ViewEvent.toggleEdit]).editedContent = "X" ∧
    (viewRun ("orig") [ViewEvent.toggleEdit, ViewEvent.typeContent ("X"),
      ViewEvent.toggleEdit, ViewEvent.toggleEdit]).dreamContent = "orig" ∧
    (viewRun ("orig") [ViewEvent.toggleEdit, ViewEvent.typeContent ("X"),
        ViewEvent.toggleEdit, ViewEvent.toggleEdit]).editedContent ≠
      (viewRun ("orig") [ViewEvent.toggleEdit, ViewEvent.typeContent ("X"),
        ViewEvent.toggleEdit, ViewEvent.toggleEdit]).dreamContent := by
  refine ⟨rfl, rfl, rfl, ?_⟩
  decide

lemma viewFold_seed (evs : List ViewEvent) :
    ∀ st : ViewState, st.editedContent = st.dreamContent →
      (∀ s, ViewEvent.typeContent s ∉ evs) →
      (evs.foldl viewStep st).editedContent = (evs.foldl viewStep st).dreamContent := by
  induction evs with
  | nil =>
    intro st h _
    exact h
  | cons e rest ih =>
    intro st h hno
    have hrest : ∀ s, ViewEvent.typeContent s ∉ rest :=
      fun s hs => hno s (List.mem_cons_of_mem _ hs)
    have hstep : (viewStep st e).editedContent = (viewStep st e).dreamContent := by
      cases e with
      | toggleEdit => simpa [viewStep] using h
      | typeContent s => exact absurd (List.mem_cons_self _ _) (hno s)
      | dreamChange c => simp [viewStep]
    simpa [List.foldl_cons] using ih (viewStep st e) hstep hrest

/-- C7 (amended): the editable field is seeded from the record's content
at mount and again whenever the focused record changes; as long as no text
has been typed since that seeding, the buffer equals the record's current
content, so toggling edit mode on at such a point shows the record's
content.  After typing and cancelling, however, the buffer keeps the typed
text until the focused record changes. -/
theorem edit_seed_amended :
    (∀ (c : String) (evs : List ViewEvent),
      (∀ s, ViewEvent.typeContent s ∉ evs) →
      (viewRun c evs).editedContent = (viewRun c evs).dreamContent) ∧
    (∀ (c c' : String) (evs₁ evs₂ : List ViewEvent),
      (∀ s, ViewEvent.typeContent s ∉ evs₂) →
      (viewRun c (evs₁ ++ ViewEvent.dreamChange c' :: evs₂)).editedContent =
        (viewRun c (evs₁ ++ ViewEvent.dreamChange c' :: evs₂)).dreamContent) := by
  constructor
  · intro c evs hno
    exact viewFold_seed evs (initView c) rfl hno
  · intro c c' evs₁ evs₂ hno
    rw [viewRun, List.foldl_append, List.foldl_cons]
    exact viewFold_seed evs₂ _ rfl hno

/-- Witness for C7 (amended): toggling edit on right after mount shows the
record's content. -/
theorem edit_seed_amended_witness :
    (viewRun ("orig") [ViewEvent.toggleEdit]).isEditing = true ∧
    (viewRun ("orig") [ViewEvent.toggleEdit]).editedContent =
      (viewRun ("orig") [ViewEvent.toggleEdit]).dreamContent := by
  refine ⟨rfl, ?_⟩
  exact edit_seed_amended.1 ("orig") [ViewEvent.toggleEdit]
    (by intro s hs; simp at hs)

/-- C8: a click on any of the modal's controls — the navigation arrows,
the zoom control, the edit, save and regenerate buttons — or on the card
body never reaches the backdrop's close handler, while a click on the
backdrop itself invokes the close callback. -/
theorem controls_never_close :
    closeFiredOn UiNode.prevBtn = false ∧
    closeFiredOn UiNode.nextBtn = false ∧
    closeFiredOn UiNode.zoomControl = false ∧
    closeFiredOn UiNode.editBtn = false ∧
    closeFiredOn UiNode.saveBtn = false ∧
    closeFiredOn UiNode.regenBtn = false ∧
    closeFiredOn UiNode.cardBody = false ∧
    closeFiredOn UiNode.innerContent = false ∧
    closeFiredOn UiNode.backdrop = true := by
  decide

/-- Counterexample to C9 as stated: for a body style that differed from
the defaults before mount, the unmount cleanup does not restore it. -/
theorem scroll_restore_counterexample :
    unmountScrollLock (mountScrollLock priorStyle) ≠ priorStyle := by
  decide

/-- C9 (amended): while the modal is mounted the body's overflow, position
and width are overridden to `hidden`, `fixed` and `100%`; on unmount they
are reset to the fixed values `unset`, `` and `` (the stylesheet
defaults) regardless of the values in effect before mount — the prior
values are restored only when they were these defaults. -/
theorem scroll_lock_resets_to_defaults (prior : BodyStyle) :
    mountScrollLock prior =
      { overflow := "hidden", position := "fixed", width := "100%" } ∧
    unmountScrollLock (mountScrollLock prior) =
      { overflow := "unset", position := "", width := "" } :=
  ⟨rfl, rfl⟩

end Idea
